import Mathlib

/-!
Verification of the sage-copilot RAG orchestration layer.

The Python sources are shallowly embedded: pure data flow becomes Lean
functions, the external libraries (unstructured's partitioning, the langchain
text splitter, the Chroma vector store, the Ollama LLM endpoint) become
explicit function parameters, and calls into the vector database are recorded
as an event trace so that statements about "no ingestion happened" are
expressible.
-/

namespace SageCopilot

/-- Static configuration, from backend/src/config.py (class Config).
Values come from environment variables; here a `Config` is an arbitrary
record of those five strings. -/
structure Config where
  NEXTCLOUD_PATH : String
  OLLAMA_MODEL : String
  EMBEDDING_MODEL : String
  DEFAULT_COLLECTION : String
  CHROMA_PATH : String
deriving DecidableEq

/-- The configuration obtained when no environment variable is set:
the literal defaults of backend/src/config.py. -/
def defaultConfig : Config :=
  { NEXTCLOUD_PATH := "/home/deck/Documents/Books"
    OLLAMA_MODEL := "qwen3:0.6b"
    EMBEDDING_MODEL := "all-minilm"
    DEFAULT_COLLECTION := "documents"
    CHROMA_PATH := "./chroma_db" }

/-- Model of pathlib's `Path(p).name`: the part of the path after the last
slash. -/
def pathName (p : String) : String :=
  String.mk ((p.toList.reverse.takeWhile (fun c => c ≠ '/')).reverse)

/-- Model of pathlib's `Path(p).suffix`: the last dot-extension of the final
component, empty when there is no dot, when the name ends in a dot, or when
the only dot is the leading character of the name (hidden files). -/
def pathSuffix (p : String) : String :=
  let n := (pathName p).toList
  let after := n.reverse.takeWhile (fun c => c ≠ '.')
  if after.length = n.length ∨ after.length = 0 ∨ after.length + 1 = n.length
  then ""
  else String.mk ('.' :: after.reverse)

/-- Python `str.lower()` restricted to its ASCII action: lowercase each
character. -/
def pyLower (s : String) : String := String.mk (s.toList.map Char.toLower)

/-- Handle on the Ollama embedding function, as constructed by
backend/src/get_vector_db.py (`OllamaEmbeddings(model=...)`). -/
structure OllamaEmbeddings where
  model : String
deriving DecidableEq

/-- Handle on the Chroma vector store, as constructed by
backend/src/get_vector_db.py (`Chroma(collection_name=..., persist_directory=...,
embedding_function=...)`). -/
structure Chroma where
  collection_name : String
  persist_directory : String
  embedding_function : OllamaEmbeddings
deriving DecidableEq

/-- backend/src/get_vector_db.py `get_vector_db`: builds the embedding handle
from the configured embedding model and a persistent Chroma collection from
the configured collection name and path.  The module-level `config = Config()`
is passed explicitly. -/
def get_vector_db (config : Config) : Chroma :=
  { collection_name := config.DEFAULT_COLLECTION
    persist_directory := config.CHROMA_PATH
    embedding_function := { model := config.EMBEDDING_MODEL } }

/-- The metadata dict attached to a loaded document in
src/embeddings.py `DocumentEmbedder.load_document`. -/
structure DocMetadata where
  source : String
  filename : String
  file_type : String
  file_size : Nat
  last_modified : Nat
deriving DecidableEq

/-- A langchain `Document`: page content plus metadata. -/
structure Document where
  page_content : String
  metadata : DocMetadata
deriving DecidableEq

/-- The parameters the `RecursiveCharacterTextSplitter` is constructed with in
src/embeddings.py `DocumentEmbedder.__init__`. -/
structure TextSplitterParams where
  chunk_size : Nat
  chunk_overlap : Nat
  separators : List String
deriving DecidableEq

/-- src/embeddings.py `DocumentEmbedder`: carries the configuration, the text
splitter parameters and the supported-extension set. -/
structure DocumentEmbedder where
  config : Config
  text_splitter : TextSplitterParams
  supported_extensions : List String

/-- src/embeddings.py `DocumentEmbedder.__init__`: the splitter parameters and
the supported-extension set are literal constants, independent of the
configuration argument. -/
def mkDocumentEmbedder (config : Config) : DocumentEmbedder :=
  { config := config
    text_splitter :=
      { chunk_size := 1000
        chunk_overlap := 200
        separators := ["\n\n", "\n", " ", ""] }
    supported_extensions :=
      [".pdf", ".docx", ".doc", ".txt", ".md", ".html", ".htm",
       ".rtf", ".odt", ".csv", ".xlsx", ".xls", ".pptx", ".ppt"] }

/-- The filesystem and external partitioning library, seen through the calls
the Python code makes: `partition(filename=...)` (`none` models the library
raising, the caught branch of `load_document`), `stat().st_size`,
`stat().st_mtime`, `is_file()` and `exists()`. -/
structure PyFS where
  partitionR : String → Option (List String)
  statSize : String → Nat
  statMtime : String → Nat
  isFile : String → Bool
  fileExists : String → Bool

/-- A directory as the Python code observes it: `exists()`, `is_dir()`, and
the sequence of paths produced by `rglob('*')`. -/
structure PyDir where
  dirExists : Bool
  isDir : Bool
  walk : List String

/-- One observable interaction with the vector database layer:
constructing the handle (`get_vector_db()`), `db.add_documents(...)`, or
`db.persist()`. -/
inductive DBEvent where
  | getHandle : DBEvent
  | addDocuments : List Document → DBEvent
  | persistCall : DBEvent
deriving DecidableEq

/-- Behaviour of the remaining external calls: the text splitter
(`none` models `split_documents` raising, the caught branch of
`chunk_documents`), whether `add_documents` succeeds on a given chunk list
(`false` models it raising, with `dbErrMsg` the exception text), and whether
the store object has a `persist` attribute. -/
structure ExternalOps where
  split : TextSplitterParams → List Document → Option (List Document)
  dbAccepts : List Document → Bool
  dbErrMsg : List Document → String
  hasPersist : Bool

/-- src/embeddings.py `DocumentEmbedder.is_supported_file`:
`file_path.suffix.lower() in self.supported_extensions`. -/
def is_supported_file (E : DocumentEmbedder) (file_path : String) : Bool :=
  E.supported_extensions.contains (pyLower (pathSuffix file_path))

/-- src/embeddings.py `DocumentEmbedder.load_document`: partition the file,
join the element texts with blank lines, and wrap the result as a single
document carrying source path, filename, lowercased file type, file size and
last-modified time; any exception yields `[]`. -/
def load_document (fs : PyFS) (file_path : String) : List Document :=
  match fs.partitionR file_path with
  | none => []
  | some elements =>
      [{ page_content := String.intercalate "\n\n" elements
         metadata :=
           { source := file_path
             filename := pathName file_path
             file_type := pyLower (pathSuffix file_path)
             file_size := fs.statSize file_path
             last_modified := fs.statMtime file_path } }]

/-- src/embeddings.py `DocumentEmbedder.chunk_documents`: apply the splitter;
an exception yields `[]`. -/
def chunk_documents (E : DocumentEmbedder) (ops : ExternalOps)
    (documents : List Document) : List Document :=
  match ops.split E.text_splitter documents with
  | some chunks => chunks
  | none => []

/-- src/embeddings.py `DocumentEmbedder.process_directory`: bail out on a
missing or non-directory path, otherwise load every regular file with a
supported extension in `rglob` order, and chunk the collected documents when
there are any. -/
def process_directory (fs : PyFS) (E : DocumentEmbedder) (ops : ExternalOps)
    (d : PyDir) : List Document :=
  if d.dirExists = false then []
  else if d.isDir = false then []
  else
    let all_documents :=
      ((d.walk.filter (fun p => fs.isFile p && is_supported_file E p)).map
        (load_document fs)).flatten
    if all_documents.isEmpty then []
    else chunk_documents E ops all_documents

/-- src/embeddings.py `DocumentEmbedder.embed_documents`: process the
directory; with no chunks return `False`; otherwise obtain the vector store
handle, add the chunks (a raise is caught and yields `False`), optionally
persist, and return `True`.  The second component records the vector-database
interactions that took place. -/
def embed_documents (fs : PyFS) (E : DocumentEmbedder) (ops : ExternalOps)
    (d : PyDir) : Bool × List DBEvent :=
  let chunks := process_directory fs E ops d
  if chunks.isEmpty then (false, [])
  else if ops.dbAccepts chunks then
    (true, [DBEvent.getHandle, DBEvent.addDocuments chunks] ++
      (if ops.hasPersist then [DBEvent.persistCall] else []))
  else (false, [DBEvent.getHandle, DBEvent.addDocuments chunks])

/-- The stats dict built by src/embeddings.py `DocumentEmbedder.get_file_stats`;
`file_types` is the insertion-ordered Python dict as an association list. -/
structure FileStats where
  total_files : Nat
  supported_files : Nat
  file_types : List (String × Nat)
  total_size : Nat
deriving DecidableEq

/-- `stats["file_types"][ext] = stats["file_types"].get(ext, 0) + 1` on a
Python dict: bump the key in place, or append it with count 1. -/
def dictIncr : List (String × Nat) → String → List (String × Nat)
  | [], k => [(k, 1)]
  | (k', v) :: rest, k =>
      if k' = k then (k', v + 1) :: rest
      else (k', v) :: dictIncr rest k

/-- The loop body of `get_file_stats`: every regular file bumps the total
count and size; a supported one additionally bumps the supported count and
its extension bucket. -/
def statsStep (fs : PyFS) (E : DocumentEmbedder) (s : FileStats) (p : String) :
    FileStats :=
  if fs.isFile p then
    let s1 := { s with
      total_files := s.total_files + 1
      total_size := s.total_size + fs.statSize p }
    if is_supported_file E p then
      { s1 with
        supported_files := s1.supported_files + 1
        file_types := dictIncr s1.file_types (pyLower (pathSuffix p)) }
    else s1
  else s

/-- src/embeddings.py `DocumentEmbedder.get_file_stats`: `none` models the
`{"error": ...}` dict returned for a missing directory. -/
def get_file_stats (fs : PyFS) (E : DocumentEmbedder) (d : PyDir) :
    Option FileStats :=
  if d.dirExists = false then none
  else some (d.walk.foldl (statsStep fs E)
    { total_files := 0, supported_files := 0, file_types := [], total_size := 0 })

/-- Sum of the per-extension counts of the `file_types` dict. -/
def sumVals (l : List (String × Nat)) : Nat := (l.map Prod.snd).sum

/-- Spec-side description of the ingestion pipeline's document collection:
walk the directory, keep regular files with supported extensions, load each.
Stated from the spec sentence for claim C1, to be compared with
`process_directory`. -/
def pipelineDocs (fs : PyFS) (E : DocumentEmbedder) (d : PyDir) :
    List Document :=
  ((d.walk.filter (fun p => fs.isFile p && is_supported_file E p)).map
    (load_document fs)).flatten

/-- Spec-side description of the chunks the pipeline hands to the store:
the collected documents, split, when there are any. -/
def pipelineChunks (fs : PyFS) (E : DocumentEmbedder) (ops : ExternalOps)
    (d : PyDir) : List Document :=
  if (pipelineDocs fs E d).isEmpty then []
  else chunk_documents E ops (pipelineDocs fs E d)

/-- Spec-side description of the single document `load_document` wraps a
parsed file into, with its metadata fields. -/
def mkLoadedDoc (fs : PyFS) (p : String) (elements : List String) : Document :=
  { page_content := String.intercalate "\n\n" elements
    metadata :=
      { source := p
        filename := pathName p
        file_type := pyLower (pathSuffix p)
        file_size := fs.statSize p
        last_modified := fs.statMtime p } }

/-- A FastAPI `HTTPException`, by status code and detail string. -/
structure HTTPError where
  status : Nat
  detail : String
deriving DecidableEq

/-- backend/app.py `QueryResponse`. -/
structure QueryResponse where
  message : String
  sources : Option (List String)
deriving DecidableEq

/-- backend/app.py `query_documents` (POST /query).  `queryFn` is the
`src.llm_query.query` function (not part of the embedded sources), modelled
as returning `none` for Python `None` and a string otherwise; the second
component records the arguments `queryFn` was called with.  The handler's
`except HTTPException: raise` clause re-raises its own `HTTPException`s
unchanged, so the embedding returns them directly. -/
def query_documents (queryFn : String → Option String) (q : String) :
    Except HTTPError QueryResponse × List String :=
  if q.toList.all Char.isWhitespace then
    (Except.error { status := 400, detail := "Query cannot be empty" }, [])
  else
    match queryFn q with
    | none =>
        (Except.error { status := 500, detail := "Failed to generate response" }, [q])
    | some r =>
        if r = "" then
          (Except.error { status := 500, detail := "Failed to generate response" }, [q])
        else
          (Except.ok { message := r, sources := none }, [q])

/-- backend/app.py `IngestResponse`. -/
structure IngestResponse where
  message : String
  files_processed : Nat
  chunks_created : Nat
deriving DecidableEq

/-- Starlette's `HTTPException.__str__`: `f"{status_code}: {detail}"`. -/
def httpExcStr (e : HTTPError) : String :=
  toString e.status ++ ": " ++ e.detail

/-- The `try` body of backend/app.py `ingest_documents` (POST /ingest):
collect stats, embed, raise 400 on failure, otherwise report
`chunks_created=0` and the post-hoc supported-file count
(`stats_after.get('supported_files', 0)`, which is 0 on the error dict). -/
def ingest_inner (fs : PyFS) (E : DocumentEmbedder) (ops : ExternalOps)
    (d : PyDir) : Except HTTPError IngestResponse :=
  let _stats_before := get_file_stats fs E d
  if (embed_documents fs E ops d).1 = false then
    Except.error { status := 400, detail := "Failed to ingest documents" }
  else
    let stats_after := get_file_stats fs E d
    Except.ok
      { message := "Documents ingested successfully"
        files_processed := (stats_after.map FileStats.supported_files).getD 0
        chunks_created := 0 }

/-- backend/app.py `ingest_documents` (POST /ingest): the handler has no
`except HTTPException: raise` clause, so its generic `except Exception`
catches its own 400 `HTTPException` and re-raises it as a 500 whose detail
prefixes "Ingestion failed: " to `str(e)`. -/
def ingest_documents (fs : PyFS) (E : DocumentEmbedder) (ops : ExternalOps)
    (d : PyDir) : Except HTTPError IngestResponse :=
  match ingest_inner fs E ops d with
  | Except.ok r => Except.ok r
  | Except.error e =>
      Except.error { status := 500, detail := "Ingestion failed: " ++ httpExcStr e }

/-- backend/app.py `StatusResponse`. -/
structure StatusResponse where
  status : String
  ollama_model : String
  embedding_model : String
  collections_available : List String
deriving DecidableEq

/-- One entry of backend/app.py `list_collections`' placeholder list. -/
structure CollectionEntry where
  name : String
  document_count : Nat
  last_updated : Option String
  description : String
deriving DecidableEq

/-- backend/app.py `CollectionsResponse`. -/
structure CollectionsResponse where
  collections : List CollectionEntry
deriving DecidableEq

/-- backend/app.py `get_status` (GET /status): a placeholder that reports the
configured models and the singleton default collection, ignoring the actual
vector-database contents (`dbContents`). -/
def get_status (config : Config) (dbContents : List Document) : StatusResponse :=
  let _ := dbContents
  { status := "healthy"
    ollama_model := config.OLLAMA_MODEL
    embedding_model := config.EMBEDDING_MODEL
    collections_available := [config.DEFAULT_COLLECTION] }

/-- backend/app.py `list_collections` (GET /collections): placeholder data,
ignoring the actual vector-database contents (`dbContents`). -/
def list_collections (config : Config) (dbContents : List Document) :
    CollectionsResponse :=
  let _ := dbContents
  { collections :=
      [{ name := config.DEFAULT_COLLECTION
         document_count := 0
         last_updated := none
         description := "Default document collection" }] }

/-- One entry of the Streamlit chat history in app.py. -/
structure ChatMessage where
  role : String
  content : String
  timestamp : String
deriving DecidableEq

/-- Outcome of the `rag_query(prompt)` call in app.py: the function returned
(`None` or a string), or raised with message `err`. -/
inductive QueryOutcome where
  | returned : Option String → QueryOutcome
  | raised : String → QueryOutcome
deriving DecidableEq

/-- The fallback text app.py shows when the query returns nothing. -/
def notFoundMessage : String :=
  "I couldn\x27t find relevant information to answer your question. Please try rephrasing or check if your files are properly indexed."

/-- The chat-input handler of app.py: append the user message, call the query
function, and append exactly one assistant message — the response when truthy,
the not-found fallback when falsy, or the error text when the call raised.
`t1` and `t2` are the two wall-clock timestamps. -/
def chatStep (outcome : QueryOutcome) (t1 t2 : String) (prompt : String)
    (msgs : List ChatMessage) : List ChatMessage :=
  let withUser := msgs ++ [{ role := "user", content := prompt, timestamp := t1 }]
  match outcome with
  | QueryOutcome.returned (some r) =>
      if r ≠ "" then
        withUser ++ [{ role := "assistant", content := r, timestamp := t2 }]
      else
        withUser ++ [{ role := "assistant", content := notFoundMessage, timestamp := t2 }]
  | QueryOutcome.returned none =>
      withUser ++ [{ role := "assistant", content := notFoundMessage, timestamp := t2 }]
  | QueryOutcome.raised e =>
      withUser ++
        [{ role := "assistant", content := "Sorry, I encountered an error: " ++ e,
           timestamp := t2 }]

/-- The event class string the webhook handles (webhooks.py). -/
def nodeCreatedEventClass : String := "OCP\\Files\\Events\\Node\\NodeCreatedEvent"

/-- The fields webhooks.py reads from the webhook payload dict
(`payload.get(...)` with default `""`). -/
structure WebhookPayload where
  eventClass : String
  nodePath : String
  userUid : String
deriving DecidableEq

/-- The JSON body returned by the webhook endpoint. -/
inductive WebhookStatus where
  | success : String → WebhookStatus
  | ignored : String → WebhookStatus
  | failed : String → WebhookStatus
deriving DecidableEq

/-- Does `pat` occur as a contiguous run inside `s`? -/
def containsSub (pat : List Char) : List Char → Bool
  | [] => pat.isEmpty
  | c :: rest => pat.isPrefixOf (c :: rest) || containsSub pat rest

/-- Python `s.replace(pat, "")` for non-empty `pat`: scan left to right,
removing each non-overlapping occurrence.  `fuel` bounds the recursion and is
instantiated with the length of `s`, which suffices for non-empty `pat`. -/
def replaceFuel (pat : List Char) : Nat → List Char → List Char
  | _, [] => []
  | 0, s => s
  | fuel + 1, c :: rest =>
      if pat ≠ [] ∧ pat.isPrefixOf (c :: rest) then
        replaceFuel pat fuel ((c :: rest).drop pat.length)
      else
        c :: replaceFuel pat fuel rest

/-- Python `s.replace(pat, "")` on strings. -/
def pyReplace (s pat : String) : String :=
  String.mk (replaceFuel pat.toList s.toList.length s.toList)

/-- POSIX `os.path.join(a, b)`: an absolute `b` discards `a`; otherwise the
parts are joined with a separator unless `a` is empty or already ends in one. -/
def osPathJoin (a b : String) : String :=
  if b.toList.head? = some '/' then b
  else if a.toList = [] ∨ a.toList.reverse.head? = some '/' then a ++ b
  else a ++ "/" ++ b

/-- webhooks.py `convert_nextcloud_path_to_filesystem`: strip every occurrence
of `"/{user_id}/files/"` from the NextCloud path and join the remainder onto
`f"{config.NEXTCLOUD_PATH}/{user_id}/files"`. -/
def convert_nextcloud_path_to_filesystem (config : Config)
    (nc_path user_id : String) : String :=
  let relative_path := pyReplace nc_path ("/" ++ user_id ++ "/files/")
  let base_path := config.NEXTCLOUD_PATH ++ "/" ++ user_id ++ "/files"
  osPathJoin base_path relative_path

/-- webhooks.py `handle_file_created`: check existence and supportedness, load
the single file, chunk it, and add the chunks to the vector store; every raise
is caught by the function's own handler and reported as a failed status.  The
second component records the vector-database interactions. -/
def handle_file_created (fs : PyFS) (E : DocumentEmbedder) (ops : ExternalOps)
    (file_path : String) : WebhookStatus × List DBEvent :=
  if fs.fileExists file_path = false then
    (WebhookStatus.failed ("Failed to process file: File does not exist: " ++ file_path), [])
  else if is_supported_file E file_path = false then
    (WebhookStatus.failed ("File type not supported: " ++ pathSuffix file_path), [])
  else
    let documents := load_document fs file_path
    if documents.isEmpty then
      (WebhookStatus.failed "Failed to process file: Failed to load document", [])
    else
      let chunks := chunk_documents E ops documents
      if ops.dbAccepts chunks then
        (WebhookStatus.success file_path,
         [DBEvent.getHandle, DBEvent.addDocuments chunks])
      else
        (WebhookStatus.failed ("Failed to process file: " ++ ops.dbErrMsg chunks),
         [DBEvent.getHandle, DBEvent.addDocuments chunks])

/-- webhooks.py `nextcloud_webhook` (POST /webhook/nextcloud): translate the
payload's path, dispatch creation events to `handle_file_created`, and ignore
every other event class. -/
def nextcloud_webhook (fs : PyFS) (E : DocumentEmbedder) (ops : ExternalOps)
    (config : Config) (payload : WebhookPayload) : WebhookStatus × List DBEvent :=
  let actual_file_path :=
    convert_nextcloud_path_to_filesystem config payload.nodePath payload.userUid
  if payload.eventClass = nodeCreatedEventClass then
    handle_file_created fs E ops actual_file_path
  else
    (WebhookStatus.ignored "Event type not handled", [])

/-! Concrete instances used to instantiate the claim theorems. -/

/-- A filesystem where nothing exists and partitioning fails. -/
def fsW0 : PyFS :=
  { partitionR := fun _ => none
    statSize := fun _ => 0
    statMtime := fun _ => 0
    isFile := fun _ => false
    fileExists := fun _ => false }

/-- External behaviour where splitting is the identity and the store accepts
everything. -/
def opsW0 : ExternalOps :=
  { split := fun _ docs => some docs
    dbAccepts := fun _ => true
    dbErrMsg := fun _ => "boom"
    hasPersist := false }

/-- A directory that does not exist. -/
def dEmpty : PyDir := { dirExists := false, isDir := false, walk := [] }

/-- A filesystem where every path except `/docs/sub` is a regular file and
partitioning yields one element. -/
def fsW1 : PyFS :=
  { partitionR := fun _ => some ["hello world"]
    statSize := fun _ => 5
    statMtime := fun _ => 7
    isFile := fun p => p != "/docs/sub"
    fileExists := fun _ => true }

/-- The embedder built from the default configuration. -/
def EW1 : DocumentEmbedder := mkDocumentEmbedder defaultConfig

/-- External behaviour where the splitter is the identity and the store
accepts any non-empty batch. -/
def opsW1 : ExternalOps :=
  { split := fun _ docs => some docs
    dbAccepts := fun l => !l.isEmpty
    dbErrMsg := fun _ => "err"
    hasPersist := false }

/-- A directory with one supported file, one subdirectory, one unsupported
file. -/
def dW1 : PyDir :=
  { dirExists := true, isDir := true
    walk := ["/docs/a.txt", "/docs/sub", "/docs/b.bin"] }

/-- A query function that only answers "hello". -/
def qfW3 : String → Option String :=
  fun s => if s = "hello" then some ("Re: " ++ s) else none

/-- A filesystem used for the statistics claim: `/dir/sub` is the only
non-file. -/
def fsW8 : PyFS :=
  { partitionR := fun _ => some ["t"]
    statSize := fun _ => 3
    statMtime := fun _ => 1
    isFile := fun p => p != "/dir/sub"
    fileExists := fun _ => true }

/-- A directory with an upper-case-suffix supported file, a subdirectory and
an unsupported file. -/
def dW8 : PyDir :=
  { dirExists := true, isDir := true
    walk := ["/dir/a.PDF", "/dir/sub", "/dir/x.bin"] }

/-- A filesystem where exactly `/home/deck/Documents/Books/u/files/a.txt`
exists. -/
def fsW4 : PyFS :=
  { partitionR := fun _ => some ["body"]
    statSize := fun _ => 4
    statMtime := fun _ => 2
    isFile := fun p => p == "/home/deck/Documents/Books/u/files/a.txt"
    fileExists := fun p => p == "/home/deck/Documents/Books/u/files/a.txt" }

/-- A creation-event payload for user `u` and file `a.txt`. -/
def payloadW4 : WebhookPayload :=
  { eventClass := nodeCreatedEventClass
    nodePath := "/u/files/a.txt"
    userUid := "u" }

/-- A creation-event payload whose relative path itself contains the
`"/{uid}/files/"` marker. -/
def payloadC4 : WebhookPayload :=
  { eventClass := nodeCreatedEventClass
    nodePath := "/u/files/x/u/files/y"
    userUid := "u" }

/-- A filesystem where exactly the file named by the payloadC4 path under the
default NextCloud root exists. -/
def fsC4 : PyFS :=
  { partitionR := fun _ => some ["body"]
    statSize := fun _ => 1
    statMtime := fun _ => 1
    isFile := fun p => p == "/home/deck/Documents/Books/u/files/x/u/files/y"
    fileExists := fun p => p == "/home/deck/Documents/Books/u/files/x/u/files/y" }

/-! Theorems. -/

/-- Claim C2: whatever configuration a `DocumentEmbedder` is constructed
with, its text splitter is created with chunk size 1000, chunk overlap 200
and the fixed separator list. -/
theorem C2_splitter_params (cfg : Config) :
    (mkDocumentEmbedder cfg).text_splitter =
      { chunk_size := 1000
        chunk_overlap := 200
        separators := ["\n\n", "\n", " ", ""] } := rfl

/-- Claim C5: GET /collections always returns the single placeholder entry
for the configured default collection with document count 0, and GET /status
reports exactly the singleton default collection, whatever the vector
database contains. -/
theorem C5_collection_stubs (cfg : Config) (dbContents : List Document) :
    list_collections cfg dbContents =
      { collections :=
          [{ name := cfg.DEFAULT_COLLECTION
             document_count := 0
             last_updated := none
             description := "Default document collection" }] }
    ∧ (get_status cfg dbContents).collections_available = [cfg.DEFAULT_COLLECTION] :=
  ⟨rfl, rfl⟩

/-- Claim C6: `get_vector_db` builds its handle from the configuration alone:
collection name from the default collection, persistence directory from the
Chroma path, embedding function from the embedding model. -/
theorem C6_vector_db_handle (cfg : Config) :
    (get_vector_db cfg).collection_name = cfg.DEFAULT_COLLECTION
    ∧ (get_vector_db cfg).persist_directory = cfg.CHROMA_PATH
    ∧ (get_vector_db cfg).embedding_function = { model := cfg.EMBEDDING_MODEL } :=
  ⟨rfl, rfl, rfl⟩

/-- Claim C3: POST /query returns 400 without calling the query function on a
whitespace-only query, 500 when the query function returns `None` or an empty
string, and otherwise the response as message with null sources. -/
theorem C3_query_endpoint (queryFn : String → Option String) (q : String) :
    (q.toList.all Char.isWhitespace = true →
        query_documents queryFn q =
          (Except.error { status := 400, detail := "Query cannot be empty" }, []))
  ∧ (q.toList.all Char.isWhitespace = false →
      (queryFn q = none ∨ queryFn q = some "") →
        query_documents queryFn q =
          (Except.error { status := 500, detail := "Failed to generate response" }, [q]))
  ∧ (∀ r, q.toList.all Char.isWhitespace = false → queryFn q = some r → r ≠ "" →
        query_documents queryFn q = (Except.ok { message := r, sources := none }, [q])) := by
  refine ⟨?_, ?_, ?_⟩
  · intro h
    simp only [query_documents]
    rw [h]
    simp
  · intro h hr
    simp only [query_documents]
    rw [h]
    rcases hr with hr | hr <;> simp [hr]
  · intro r h hr hne
    simp only [query_documents]
    rw [h]
    simp [hr, hne]

/-- Witness for C3 at concrete queries. -/
theorem C3_query_endpoint_witness :
    query_documents qfW3 " " =
      (Except.error { status := 400, detail := "Query cannot be empty" }, [])
    ∧ query_documents qfW3 "x" =
      (Except.error { status := 500, detail := "Failed to generate response" }, ["x"])
    ∧ query_documents qfW3 "hello" =
      (Except.ok { message := "Re: hello", sources := none }, ["hello"]) :=
  ⟨(C3_query_endpoint qfW3 " ").1 (by decide),
   (C3_query_endpoint qfW3 "x").2.1 (by decide) (Or.inl (by decide)),
   (C3_query_endpoint qfW3 "hello").2.2 "Re: hello" (by decide) (by decide) (by decide)⟩

/-- Claim C7: a submitted non-empty prompt appends exactly one user message
and one assistant message (response, fallback or error text) to the history,
leaving every stored message intact. -/
theorem C7_chat_history (outcome : QueryOutcome) (t1 t2 prompt : String)
    (msgs : List ChatMessage) (_hp : prompt ≠ "") :
    ∃ c, chatStep outcome t1 t2 prompt msgs =
        msgs ++ [{ role := "user", content := prompt, timestamp := t1 },
                 { role := "assistant", content := c, timestamp := t2 }]
      ∧ ((∃ r, outcome = QueryOutcome.returned (some r) ∧ r ≠ "" ∧ c = r)
         ∨ c = notFoundMessage
         ∨ (∃ e, outcome = QueryOutcome.raised e ∧
              c = "Sorry, I encountered an error: " ++ e)) := by
  rcases outcome with r | e
  · rcases r with _ | r
    · exact ⟨notFoundMessage, by simp [chatStep], Or.inr (Or.inl rfl)⟩
    · by_cases hr : r = ""
      · subst hr
        exact ⟨notFoundMessage, by simp [chatStep], Or.inr (Or.inl rfl)⟩
      · exact ⟨r, by simp [chatStep, hr], Or.inl ⟨r, rfl, hr, rfl⟩⟩
  · exact ⟨"Sorry, I encountered an error: " ++ e,
      by simp [chatStep], Or.inr (Or.inr ⟨e, rfl, rfl⟩)⟩

/-- Witness for C7 at a concrete prompt and response. -/
theorem C7_chat_history_witness :
    ∃ c, chatStep (QueryOutcome.returned (some "fine")) "10:00:00" "10:00:01" "hi" [] =
        [] ++ [{ role := "user", content := "hi", timestamp := "10:00:00" },
               { role := "assistant", content := c, timestamp := "10:00:01" }]
      ∧ ((∃ r, QueryOutcome.returned (some "fine") = QueryOutcome.returned (some r) ∧
            r ≠ "" ∧ c = r)
         ∨ c = notFoundMessage
         ∨ (∃ e, QueryOutcome.returned (some "fine") = QueryOutcome.raised e ∧
              c = "Sorry, I encountered an error: " ++ e)) :=
  C7_chat_history (QueryOutcome.returned (some "fine")) "10:00:00" "10:00:01" "hi" []
    (by decide)

/-- Claim C9: POST /ingest re-raises its own 400 as a 500 with detail
prefixed "Ingestion failed:", never answers 400, and every successful
response reports `chunks_created = 0`. -/
theorem C9_ingest_endpoint (fs : PyFS) (E : DocumentEmbedder) (ops : ExternalOps)
    (d : PyDir) :
    ((embed_documents fs E ops d).1 = false →
        ingest_documents fs E ops d =
          Except.error
            ⟨500, "Ingestion failed: 400: Failed to ingest documents"⟩)
  ∧ (∀ e, ingest_documents fs E ops d = Except.error e → e.status = 500)
  ∧ (∀ r, ingest_documents fs E ops d = Except.ok r → r.chunks_created = 0) := by
  refine ⟨?_, ?_, ?_⟩
  · intro h
    have hinner : ingest_inner fs E ops d =
        Except.error { status := 400, detail := "Failed to ingest documents" } := by
      simp [ingest_inner, h]
    simp only [ingest_documents, hinner, httpExcStr]
    rfl
  · intro e he
    unfold ingest_documents at he
    cases hinner : ingest_inner fs E ops d with
    | ok r => rw [hinner] at he; simp at he
    | error e2 =>
        rw [hinner] at he
        simp only [Except.error.injEq] at he
        rw [← he]
  · intro r hr
    unfold ingest_documents at hr
    cases hinner : ingest_inner fs E ops d with
    | error e2 => rw [hinner] at hr; simp at hr
    | ok r2 =>
        rw [hinner] at hr
        simp only [Except.ok.injEq] at hr
        unfold ingest_inner at hinner
        by_cases h : (embed_documents fs E ops d).1 = false
        · rw [if_pos h] at hinner; simp at hinner
        · rw [if_neg h] at hinner
          simp only [Except.ok.injEq] at hinner
          rw [← hr, ← hinner]

/-- Witness for C9 on a directory that does not exist: ingestion fails and
the endpoint answers 500, not 400. -/
theorem C9_ingest_endpoint_witness :
    (embed_documents fsW0 EW1 opsW0 dEmpty).1 = false
    ∧ ingest_documents fsW0 EW1 opsW0 dEmpty =
        Except.error
          ⟨500, "Ingestion failed: 400: Failed to ingest documents"⟩ :=
  ⟨by decide, (C9_ingest_endpoint fsW0 EW1 opsW0 dEmpty).1 (by decide)⟩

/-- Claim C10: when the directory is missing, is not a directory, or yields
no chunks, `embed_documents` returns `False` with no vector-database
interaction at all — the handle is never constructed and nothing is added. -/
theorem C10_failure_path (fs : PyFS) (E : DocumentEmbedder) (ops : ExternalOps)
    (d : PyDir)
    (h : d.dirExists = false ∨ d.isDir = false ∨ process_directory fs E ops d = []) :
    embed_documents fs E ops d = (false, [])
    ∧ DBEvent.getHandle ∉ (embed_documents fs E ops d).2
    ∧ ∀ docs, DBEvent.addDocuments docs ∉ (embed_documents fs E ops d).2 := by
  have hp : process_directory fs E ops d = [] := by
    rcases h with h | h | h
    · simp [process_directory, h]
    · simp [process_directory, h]
    · exact h
  have he : embed_documents fs E ops d = (false, []) := by
    simp [embed_documents, hp]
  refine ⟨he, ?_, ?_⟩
  · simp [he]
  · intro docs
    simp [he]

/-- Witness for C10 on a missing directory. -/
theorem C10_failure_path_witness :
    embed_documents fsW0 EW1 opsW0 dEmpty = (false, [])
    ∧ DBEvent.getHandle ∉ (embed_documents fsW0 EW1 opsW0 dEmpty).2
    ∧ ∀ docs, DBEvent.addDocuments docs ∉ (embed_documents fsW0 EW1 opsW0 dEmpty).2 :=
  C10_failure_path fsW0 EW1 opsW0 dEmpty (Or.inl rfl)

/-- Claim C1: on an existing directory, ingestion walks it, keeps supported
regular files, wraps each successfully parsed file as one document with the
metadata fields, chunks the collected documents, hands exactly those chunks
to the store, and returns `True` exactly when chunks exist and the store
accepted them. -/
theorem C1_ingestion_pipeline (fs : PyFS) (E : DocumentEmbedder)
    (ops : ExternalOps) (d : PyDir)
    (hex : d.dirExists = true) (hdir : d.isDir = true) :
    (∀ p elements, fs.partitionR p = some elements →
        load_document fs p = [mkLoadedDoc fs p elements])
  ∧ process_directory fs E ops d = pipelineChunks fs E ops d
  ∧ ((embed_documents fs E ops d).1 = true ↔
      (pipelineChunks fs E ops d ≠ [] ∧
        ops.dbAccepts (pipelineChunks fs E ops d) = true))
  ∧ (pipelineChunks fs E ops d ≠ [] →
      DBEvent.addDocuments (pipelineChunks fs E ops d) ∈
        (embed_documents fs E ops d).2) := by
  have hpd : process_directory fs E ops d = pipelineChunks fs E ops d := by
    simp [process_directory, pipelineChunks, pipelineDocs, hex, hdir]
  refine ⟨?_, hpd, ?_, ?_⟩
  · intro p elements hpe
    simp [load_document, hpe, mkLoadedDoc]
  · by_cases h1 : pipelineChunks fs E ops d = []
    · simp [embed_documents, hpd, h1]
    · have h1e : (pipelineChunks fs E ops d).isEmpty = false := by
        simp [List.isEmpty_iff, h1]
      by_cases h2 : ops.dbAccepts (pipelineChunks fs E ops d) = true
      · simp [embed_documents, hpd, h1e, h2, h1]
      · simp only [Bool.not_eq_true] at h2
        simp [embed_documents, hpd, h1e, h2, h1]
  · intro hne
    have h1e : (pipelineChunks fs E ops d).isEmpty = false := by
      simp [List.isEmpty_iff, hne]
    by_cases h2 : ops.dbAccepts (pipelineChunks fs E ops d) = true
    · simp [embed_documents, hpd, h1e, h2]
    · simp only [Bool.not_eq_true] at h2
      simp [embed_documents, hpd, h1e, h2]

/-- Witness for C1 on a concrete directory with one supported file. -/
theorem C1_ingestion_pipeline_witness :
    (∀ p elements, fsW1.partitionR p = some elements →
        load_document fsW1 p = [mkLoadedDoc fsW1 p elements])
  ∧ process_directory fsW1 EW1 opsW1 dW1 = pipelineChunks fsW1 EW1 opsW1 dW1
  ∧ ((embed_documents fsW1 EW1 opsW1 dW1).1 = true ↔
      (pipelineChunks fsW1 EW1 opsW1 dW1 ≠ [] ∧
        opsW1.dbAccepts (pipelineChunks fsW1 EW1 opsW1 dW1) = true))
  ∧ (pipelineChunks fsW1 EW1 opsW1 dW1 ≠ [] →
      DBEvent.addDocuments (pipelineChunks fsW1 EW1 opsW1 dW1) ∈
        (embed_documents fsW1 EW1 opsW1 dW1).2) :=
  C1_ingestion_pipeline fsW1 EW1 opsW1 dW1 rfl rfl

/-- Bumping a key adds exactly one to the sum of the dict's counts. -/
theorem sumVals_dictIncr (l : List (String × Nat)) (k : String) :
    sumVals (dictIncr l k) = sumVals l + 1 := by
  induction l with
  | nil => rfl
  | cons hd tl ih =>
      obtain ⟨k0, v⟩ := hd
      by_cases h : k0 = k
      · simp [dictIncr, h, sumVals]
        omega
      · simp [dictIncr, h, sumVals] at ih ⊢
        omega

/-- Bumping a key introduces no key other than the bumped one. -/
theorem keys_dictIncr (l : List (String × Nat)) (k k' : String)
    (h : k' ∈ (dictIncr l k).map Prod.fst) :
    k' ∈ l.map Prod.fst ∨ k' = k := by
  induction l with
  | nil =>
      simp [dictIncr] at h
      exact Or.inr h
  | cons hd tl ih =>
      obtain ⟨k0, v⟩ := hd
      by_cases h0 : k0 = k
      · simp only [dictIncr, if_pos h0, List.map_cons, List.mem_cons] at h
        rcases h with h | h
        · exact Or.inl (by simp [h])
        · exact Or.inl (by simp [h])
      · simp only [dictIncr, if_neg h0, List.map_cons, List.mem_cons] at h
        rcases h with h | h
        · exact Or.inl (by simp [h])
        · rcases ih h with h2 | h2
          · exact Or.inl (by simp [h2])
          · exact Or.inr h2

/-- A conjunction filter never keeps more elements than its left conjunct. -/
theorem length_filter_and_le (f g : String → Bool) (l : List String) :
    (l.filter (fun p => f p && g p)).length ≤ (l.filter f).length := by
  induction l with
  | nil => simp
  | cons a rest ih =>
      by_cases hf : f a = true
      · by_cases hg : g a = true
        · simp only [List.filter_cons, hf, hg, Bool.and_self, if_pos]
          simpa using ih
        · simp only [Bool.not_eq_true] at hg
          simp [List.filter_cons, hf, hg]
          omega
      · simp only [Bool.not_eq_true] at hf
        simp [List.filter_cons, hf]
        exact ih

/-- The `get_file_stats` loop adds one to `total_files` per walked regular
file. -/
theorem foldl_total_files (fs : PyFS) (E : DocumentEmbedder) :
    ∀ (l : List String) (s : FileStats),
      (l.foldl (statsStep fs E) s).total_files =
        s.total_files + (l.filter fs.isFile).length := by
  intro l
  induction l with
  | nil => intro s; simp
  | cons p rest ih =>
      intro s
      rw [List.foldl_cons, ih]
      by_cases hf : fs.isFile p = true
      · by_cases hs : is_supported_file E p = true
        · simp [statsStep, hf, hs, List.filter_cons]
          omega
        · simp only [Bool.not_eq_true] at hs
          simp [statsStep, hf, hs, List.filter_cons]
          omega
      · simp only [Bool.not_eq_true] at hf
        simp [statsStep, hf, List.filter_cons]

/-- The `get_file_stats` loop adds each walked regular file's size to
`total_size`. -/
theorem foldl_total_size (fs : PyFS) (E : DocumentEmbedder) :
    ∀ (l : List String) (s : FileStats),
      (l.foldl (statsStep fs E) s).total_size =
        s.total_size + ((l.filter fs.isFile).map fs.statSize).sum := by
  intro l
  induction l with
  | nil => intro s; simp
  | cons p rest ih =>
      intro s
      rw [List.foldl_cons, ih]
      by_cases hf : fs.isFile p = true
      · by_cases hs : is_supported_file E p = true
        · simp [statsStep, hf, hs, List.filter_cons]
          omega
        · simp only [Bool.not_eq_true] at hs
          simp [statsStep, hf, hs, List.filter_cons]
          omega
      · simp only [Bool.not_eq_true] at hf
        simp [statsStep, hf, List.filter_cons]

/-- The `get_file_stats` loop adds one to `supported_files` per walked
supported regular file. -/
theorem foldl_supported_files (fs : PyFS) (E : DocumentEmbedder) :
    ∀ (l : List String) (s : FileStats),
      (l.foldl (statsStep fs E) s).supported_files =
        s.supported_files +
          (l.filter (fun p => fs.isFile p && is_supported_file E p)).length := by
  intro l
  induction l with
  | nil => intro s; simp
  | cons p rest ih =>
      intro s
      rw [List.foldl_cons, ih]
      by_cases hf : fs.isFile p = true
      · by_cases hs : is_supported_file E p = true
        · simp [statsStep, hf, hs, List.filter_cons]
          omega
        · simp only [Bool.not_eq_true] at hs
          simp [statsStep, hf, hs, List.filter_cons]
      · simp only [Bool.not_eq_true] at hf
        simp [statsStep, hf, List.filter_cons]

/-- The `get_file_stats` loop adds one to the summed `file_types` counts per
walked supported regular file. -/
theorem foldl_sumVals (fs : PyFS) (E : DocumentEmbedder) :
    ∀ (l : List String) (s : FileStats),
      sumVals (l.foldl (statsStep fs E) s).file_types =
        sumVals s.file_types +
          (l.filter (fun p => fs.isFile p && is_supported_file E p)).length := by
  intro l
  induction l with
  | nil => intro s; simp
  | cons p rest ih =>
      intro s
      rw [List.foldl_cons, ih]
      by_cases hf : fs.isFile p = true
      · by_cases hs : is_supported_file E p = true
        · simp [statsStep, hf, hs, List.filter_cons, sumVals_dictIncr]
          omega
        · simp only [Bool.not_eq_true] at hs
          simp [statsStep, hf, hs, List.filter_cons]
      · simp only [Bool.not_eq_true] at hf
        simp [statsStep, hf, List.filter_cons]

/-- Every key the `get_file_stats` loop adds to `file_types` is the lowercased
suffix of some walked supported file. -/
theorem foldl_keys (fs : PyFS) (E : DocumentEmbedder) :
    ∀ (l : List String) (s : FileStats) (k : String),
      k ∈ (l.foldl (statsStep fs E) s).file_types.map Prod.fst →
      k ∈ s.file_types.map Prod.fst ∨
        ∃ p, p ∈ l ∧ is_supported_file E p = true ∧ k = pyLower (pathSuffix p) := by
  intro l
  induction l with
  | nil =>
      intro s k h
      exact Or.inl (by simpa using h)
  | cons p rest ih =>
      intro s k h
      rw [List.foldl_cons] at h
      rcases ih (statsStep fs E s p) k h with h1 | h1
      · by_cases hf : fs.isFile p = true
        · by_cases hs : is_supported_file E p = true
          · simp only [statsStep, hf, hs, if_pos] at h1
            rcases keys_dictIncr s.file_types (pyLower (pathSuffix p)) k
                (by simpa using h1) with h2 | h2
            · exact Or.inl h2
            · exact Or.inr ⟨p, by simp, hs, h2⟩
          · simp only [Bool.not_eq_true] at hs
            simp [statsStep, hf, hs] at h1
            exact Or.inl (by simpa using h1)
        · simp only [Bool.not_eq_true] at hf
          simp [statsStep, hf] at h1
          exact Or.inl (by simpa using h1)
      · obtain ⟨p2, hp2, hsup, hk⟩ := h1
        exact Or.inr ⟨p2, by simp [hp2], hsup, hk⟩

/-- `l.contains a = true` gives membership (String `BEq` is lawful). -/
theorem mem_of_contains {l : List String} {a : String}
    (h : l.contains a = true) : a ∈ l := by
  simpa using h

/-- Claim C8: on an existing directory, the statistics have at most as many
supported files as total files, the supported count equals the summed
per-extension counts, every `file_types` key is a (lowercase) member of the
supported set, and `total_size` sums the sizes of all walked regular files. -/
theorem C8_file_stats (fs : PyFS) (cfg : Config) (d : PyDir)
    (hex : d.dirExists = true) :
    ∃ s, get_file_stats fs (mkDocumentEmbedder cfg) d = some s
      ∧ s.supported_files ≤ s.total_files
      ∧ s.supported_files = sumVals s.file_types
      ∧ (∀ k ∈ s.file_types.map Prod.fst,
          k ∈ (mkDocumentEmbedder cfg).supported_extensions)
      ∧ (∀ x ∈ (mkDocumentEmbedder cfg).supported_extensions, pyLower x = x)
      ∧ s.total_size = ((d.walk.filter fs.isFile).map fs.statSize).sum := by
  refine ⟨d.walk.foldl (statsStep fs (mkDocumentEmbedder cfg))
      { total_files := 0, supported_files := 0, file_types := [], total_size := 0 },
    ?_, ?_, ?_, ?_, ?_, ?_⟩
  · simp [get_file_stats, hex]
  · rw [foldl_total_files, foldl_supported_files]
    simpa using
      length_filter_and_le fs.isFile (is_supported_file (mkDocumentEmbedder cfg)) d.walk
  · rw [foldl_supported_files, foldl_sumVals]
    simp [sumVals]
  · intro k hk
    rcases foldl_keys fs (mkDocumentEmbedder cfg) d.walk
        { total_files := 0, supported_files := 0, file_types := [], total_size := 0 }
        k hk with h | h
    · simp at h
    · obtain ⟨p, _, hsup, hk2⟩ := h
      subst hk2
      exact mem_of_contains hsup
  · show ∀ x ∈ ([".pdf", ".docx", ".doc", ".txt", ".md", ".html", ".htm",
        ".rtf", ".odt", ".csv", ".xlsx", ".xls", ".pptx", ".ppt"] : List String),
      pyLower x = x
    decide
  · rw [foldl_total_size]
    simp

/-- Witness for C8 on a concrete directory. -/
theorem C8_file_stats_witness :
    ∃ s, get_file_stats fsW8 (mkDocumentEmbedder defaultConfig) dW8 = some s
      ∧ s.supported_files ≤ s.total_files
      ∧ s.supported_files = sumVals s.file_types
      ∧ (∀ k ∈ s.file_types.map Prod.fst,
          k ∈ (mkDocumentEmbedder defaultConfig).supported_extensions)
      ∧ (∀ x ∈ (mkDocumentEmbedder defaultConfig).supported_extensions, pyLower x = x)
      ∧ s.total_size = ((dW8.walk.filter fsW8.isFile).map fsW8.statSize).sum :=
  C8_file_stats fsW8 defaultConfig dW8 rfl

/-- A list is a prefix of itself followed by anything. -/
theorem isPrefixOf_append_self (p r : List Char) : p.isPrefixOf (p ++ r) = true := by
  induction p with
  | nil => simp [List.isPrefixOf]
  | cons a as ih => simp [List.isPrefixOf, ih]

/-- Replacement is the identity on a string with no occurrence of the
pattern. -/
theorem replaceFuel_no_occurrence (pat : List Char) :
    ∀ (fuel : Nat) (s : List Char), s.length ≤ fuel →
      containsSub pat s = false → replaceFuel pat fuel s = s := by
  intro fuel
  induction fuel with
  | zero =>
      intro s hl _
      cases s with
      | nil => rfl
      | cons c rest => simp at hl
  | succ f ih =>
      intro s hl hc
      cases s with
      | nil => rfl
      | cons c rest =>
          simp only [containsSub, Bool.or_eq_false_iff] at hc
          obtain ⟨h1, h2⟩ := hc
          simp only [replaceFuel]
          rw [if_neg]
          · rw [ih rest (by simpa using hl) h2]
          · rintro ⟨-, hpre⟩
            rw [h1] at hpre
            exact absurd hpre (by simp)

/-- Replacing a non-empty pattern in `pat ++ rel` strips exactly the leading
occurrence when `rel` contains none. -/
theorem replaceFuel_strip (pat rel : List Char) (hne : pat ≠ [])
    (hno : containsSub pat rel = false) :
    ∀ fuel, pat.length + rel.length ≤ fuel →
      replaceFuel pat fuel (pat ++ rel) = rel := by
  intro fuel hf
  cases pat with
  | nil => exact absurd rfl hne
  | cons a as =>
      cases fuel with
      | zero => simp at hf
      | succ f =>
          rw [List.cons_append]
          simp only [replaceFuel]
          rw [if_pos ⟨hne, by simp⟩]
          have hd : ((a :: (as ++ rel)).drop (a :: as).length) = rel := by
            rw [List.length_cons, List.drop_succ_cons, List.drop_left]
          rw [hd]
          apply replaceFuel_no_occurrence (a :: as) f rel ?_ hno
          simp only [List.length_cons] at hf
          omega

/-- `pyReplace` on a well-formed `pat ++ rel` strips the leading pattern. -/
theorem pyReplace_strip (pat rel : String) (hne : pat.toList ≠ [])
    (hno : containsSub pat.toList rel.toList = false) :
    pyReplace (pat ++ rel) pat = rel := by
  unfold pyReplace
  have hd : (pat ++ rel).toList = pat.toList ++ rel.toList := rfl
  rw [hd, replaceFuel_strip pat.toList rel.toList hne hno _ (by simp)]
  rfl

/-- On a well-formed NextCloud path `"/{uid}/files/{rel}"` whose relative
part does not itself contain `"/{uid}/files/"` and is not absolute, the path
translation produces `"{NEXTCLOUD_PATH}/{uid}/files/{rel}"`. -/
theorem convert_wellformed (cfg : Config) (uid rel : String)
    (hno : containsSub ("/" ++ uid ++ "/files/").toList rel.toList = false)
    (habs : rel.toList.head? ≠ some '/') :
    convert_nextcloud_path_to_filesystem cfg ("/" ++ uid ++ "/files/" ++ rel) uid =
      cfg.NEXTCLOUD_PATH ++ "/" ++ uid ++ "/files" ++ "/" ++ rel := by
  have hne : ("/" ++ uid ++ "/files/").toList ≠ [] := by
    have h0 : ("/" ++ uid ++ "/files/").toList =
        '/' :: (uid.toList ++ "/files/".toList) := rfl
    rw [h0]
    simp
  simp only [convert_nextcloud_path_to_filesystem]
  rw [pyReplace_strip _ _ hne hno]
  have ha : (cfg.NEXTCLOUD_PATH ++ "/" ++ uid ++ "/files").toList =
      (cfg.NEXTCLOUD_PATH ++ "/" ++ uid).toList ++ ['/', 'f', 'i', 'l', 'e', 's'] := rfl
  simp only [osPathJoin]
  rw [if_neg habs, if_neg]
  rintro (h | h)
  · rw [ha] at h
    simp at h
  · rw [ha, List.reverse_append] at h
    simp at h

/-- Whatever `handle_file_created` adds to the store is the chunked load of
exactly the file it was given. -/
theorem handle_file_created_adds (fs : PyFS) (E : DocumentEmbedder)
    (ops : ExternalOps) (fp : String) (docs : List Document)
    (h : DBEvent.addDocuments docs ∈ (handle_file_created fs E ops fp).2) :
    docs = chunk_documents E ops (load_document fs fp) := by
  simp only [handle_file_created] at h
  split at h
  · simp at h
  · split at h
    · simp at h
    · split at h
      · simp at h
      · split at h
        · simpa using h
        · simpa using h

/-- When the file exists, is supported, and loads to at least one document,
`handle_file_created` constructs the store handle and adds exactly the
chunked load of that file. -/
theorem handle_file_created_trace (fs : PyFS) (E : DocumentEmbedder)
    (ops : ExternalOps) (fp : String)
    (h1 : fs.fileExists fp = true) (h2 : is_supported_file E fp = true)
    (h3 : load_document fs fp ≠ []) :
    (handle_file_created fs E ops fp).2 =
      [DBEvent.getHandle,
       DBEvent.addDocuments (chunk_documents E ops (load_document fs fp))] := by
  simp only [handle_file_created]
  rw [if_neg (by simp [h1]), if_neg (by simp [h2])]
  have h3e : (load_document fs fp).isEmpty = false := by
    simp [List.isEmpty_iff, h3]
  rw [if_neg (by simp [h3e])]
  by_cases h4 : ops.dbAccepts (chunk_documents E ops (load_document fs fp)) = true
  · rw [if_pos h4]
  · rw [if_neg h4]

/-- Claim C4 counterexample: for the creation-event payload whose relative
path `"x/u/files/y"` itself contains `"/u/files/"`, `str.replace` removes
both occurrences, so the webhook resolves `"…/u/files/xy"` instead of the
joined path `"…/u/files/x/u/files/y"` the claim predicts, and it ingests
nothing even though the claimed file exists. -/
theorem C4_webhook_counterexample :
    payloadC4.eventClass = nodeCreatedEventClass
    ∧ payloadC4.nodePath = "/" ++ payloadC4.userUid ++ "/files/" ++ "x/u/files/y"
    ∧ convert_nextcloud_path_to_filesystem defaultConfig payloadC4.nodePath
        payloadC4.userUid = "/home/deck/Documents/Books/u/files/xy"
    ∧ convert_nextcloud_path_to_filesystem defaultConfig payloadC4.nodePath
        payloadC4.userUid ≠
      defaultConfig.NEXTCLOUD_PATH ++ "/" ++ payloadC4.userUid ++ "/files" ++ "/"
        ++ "x/u/files/y"
    ∧ fsC4.fileExists (defaultConfig.NEXTCLOUD_PATH ++ "/" ++ payloadC4.userUid
        ++ "/files" ++ "/" ++ "x/u/files/y") = true
    ∧ nextcloud_webhook fsC4 EW1 opsW0 defaultConfig payloadC4 =
        (WebhookStatus.failed ("Failed to process file: File does not exist: "
          ++ "/home/deck/Documents/Books/u/files/xy"), []) := by
  refine ⟨rfl, rfl, by decide, by decide, by decide, by decide⟩

/-- Claim C4 (amended): for a creation-event payload whose path is
`"/{uid}/files/{rel}"` with `rel` neither absolute nor containing
`"/{uid}/files/"`, the webhook hands `handle_file_created` exactly the path
joined from NEXTCLOUD_PATH, the user id, `"files"` and `rel`; any documents
added to the store are the chunked load of exactly that file, and when the
file exists, is supported and loads, the chunks are added; any other event
class is ignored with no ingestion. -/
theorem C4_webhook_single_file (fs : PyFS) (E : DocumentEmbedder)
    (ops : ExternalOps) (cfg : Config) (payload : WebhookPayload)
    (rel actual : String)
    (hpath : payload.nodePath = "/" ++ payload.userUid ++ "/files/" ++ rel)
    (hno : containsSub ("/" ++ payload.userUid ++ "/files/").toList rel.toList
        = false)
    (habs : rel.toList.head? ≠ some '/')
    (hact : actual =
        cfg.NEXTCLOUD_PATH ++ "/" ++ payload.userUid ++ "/files" ++ "/" ++ rel) :
    (payload.eventClass = nodeCreatedEventClass →
        nextcloud_webhook fs E ops cfg payload = handle_file_created fs E ops actual
        ∧ (∀ docs,
            DBEvent.addDocuments docs ∈ (nextcloud_webhook fs E ops cfg payload).2 →
            docs = chunk_documents E ops (load_document fs actual))
        ∧ (fs.fileExists actual = true → is_supported_file E actual = true →
            load_document fs actual ≠ [] →
            (nextcloud_webhook fs E ops cfg payload).2 =
              [DBEvent.getHandle,
               DBEvent.addDocuments (chunk_documents E ops (load_document fs actual))]))
  ∧ (payload.eventClass ≠ nodeCreatedEventClass →
      nextcloud_webhook fs E ops cfg payload =
        (WebhookStatus.ignored "Event type not handled", [])) := by
  subst hact
  have hcv : convert_nextcloud_path_to_filesystem cfg payload.nodePath
      payload.userUid =
      cfg.NEXTCLOUD_PATH ++ "/" ++ payload.userUid ++ "/files" ++ "/" ++ rel := by
    rw [hpath]
    exact convert_wellformed cfg payload.userUid rel hno habs
  constructor
  · intro hev
    have hweb : nextcloud_webhook fs E ops cfg payload =
        handle_file_created fs E ops
          (cfg.NEXTCLOUD_PATH ++ "/" ++ payload.userUid ++ "/files" ++ "/" ++ rel) := by
      simp only [nextcloud_webhook, hcv]
      rw [if_pos hev]
    refine ⟨hweb, ?_, ?_⟩
    · intro docs hmem
      rw [hweb] at hmem
      exact handle_file_created_adds fs E ops _ docs hmem
    · intro h1 h2 h3
      rw [hweb]
      exact handle_file_created_trace fs E ops _ h1 h2 h3
  · intro hev
    simp only [nextcloud_webhook]
    rw [if_neg hev]

/-- Witness for the amended C4 at a concrete well-formed payload. -/
theorem C4_webhook_single_file_witness :
    (payloadW4.eventClass = nodeCreatedEventClass →
        nextcloud_webhook fsW4 EW1 opsW0 defaultConfig payloadW4 =
          handle_file_created fsW4 EW1 opsW0
            "/home/deck/Documents/Books/u/files/a.txt"
        ∧ (∀ docs,
            DBEvent.addDocuments docs ∈
              (nextcloud_webhook fsW4 EW1 opsW0 defaultConfig payloadW4).2 →
            docs = chunk_documents EW1 opsW0
              (load_document fsW4 "/home/deck/Documents/Books/u/files/a.txt"))
        ∧ (fsW4.fileExists "/home/deck/Documents/Books/u/files/a.txt" = true →
            is_supported_file EW1 "/home/deck/Documents/Books/u/files/a.txt" = true →
            load_document fsW4 "/home/deck/Documents/Books/u/files/a.txt" ≠ [] →
            (nextcloud_webhook fsW4 EW1 opsW0 defaultConfig payloadW4).2 =
              [DBEvent.getHandle,
               DBEvent.addDocuments (chunk_documents EW1 opsW0
                 (load_document fsW4 "/home/deck/Documents/Books/u/files/a.txt"))]))
  ∧ (payloadW4.eventClass ≠ nodeCreatedEventClass →
      nextcloud_webhook fsW4 EW1 opsW0 defaultConfig payloadW4 =
        (WebhookStatus.ignored "Event type not handled", [])) :=
  C4_webhook_single_file fsW4 EW1 opsW0 defaultConfig payloadW4 "a.txt"
    "/home/deck/Documents/Books/u/files/a.txt"
    (by decide) (by decide) (by decide) (by decide)

end SageCopilot
